import Mathlib

/-!
Verification development for the email summarize-and-speak pipeline
(server/app: models/email.py, services/langchain_service.py,
services/murfai_service.py, controllers/email_summarizer_controller.py).

Python strings are modelled as `List Char`; Python dicts returned by
`LangchainService.summarize_email` are modelled by the `SummaryResult`
structure (each optional key as an `Option` field).
-/

/-- Lowercase a string, as Python str.lower() (ASCII inputs here). -/
def lowerList (s : List Char) : List Char := s.map Char.toLower

/-- Python str.strip(): drop leading and trailing whitespace. -/
def pyStrip (s : List Char) : List Char :=
  ((s.dropWhile Char.isWhitespace).reverse.dropWhile Char.isWhitespace).reverse

/-- Python substring test `needle in hay`. -/
def hasSub (needle : List Char) : List Char → Bool
  | [] => needle.isEmpty
  | c :: rest => needle.isPrefixOf (c :: rest) || hasSub needle rest

/-- Decimal representation of a natural number, as Python str(n). -/
def natRepr (n : Nat) : List Char :=
  if n = 0 then [Char.ofNat 48]
  else ((Nat.digits 10 n).map (fun d => Char.ofNat (48 + d))).reverse

/-- models/email.py: EmailData fields (after pydantic validation). -/
structure EmailData where
  subject : List Char
  sender : List Char
  body : List Char
deriving DecidableEq

/-- Pydantic message for a Field(min_length=1) violation. -/
def minLenMsg : List Char := "ensure this value has at least 1 characters".toList

/-- models/email.py line 21: message of validate_body_length. -/
def bodyLenMsg : List Char := "Email body must be at least 10 characters long".toList

/-- Join collected pydantic field errors into one message (the exact
ValidationError rendering is library behaviour; we model it as the
per-field messages joined). -/
def joinMsgs (l : List (List Char)) : List Char := List.intercalate ("; ".toList) l

/-- models/email.py: constructing EmailData(subject, sender, body).
Pydantic v1 checks min_length=1 of each Field on the raw value, then runs
the strip validator, then (body only) validate_body_length on the
stripped value; errors are collected per field in declaration order. -/
def emailDataMk (subject sender body : List Char) : Except (List Char) EmailData :=
  let errs : List (List Char) :=
    (if subject = [] then [minLenMsg] else []) ++
    (if sender = [] then [minLenMsg] else []) ++
    (if body = [] then [minLenMsg]
     else if (pyStrip body).length < 10 then [bodyLenMsg] else [])
  if errs.isEmpty then .ok ⟨pyStrip subject, pyStrip sender, pyStrip body⟩
  else .error (joinMsgs errs)

/-- langchain_service.py lines 12-15: the two model providers. -/
inductive Provider where
  | gemini
  | openai
deriving DecidableEq

/-- Value of the provider enum member (Python .value). -/
def provValue : Provider → List Char
  | .gemini => "gemini".toList
  | .openai => "openai".toList

/-- langchain_service.py: the dict returned by summarize_email, with each
optional key as an Option field (keys appear in this order in every
branch of the source). -/
structure SummaryResult where
  success : Bool
  summary : Option (List Char)
  error : Option (List Char)
  provider : Option (List Char)
  model : Option (List Char)
deriving DecidableEq

/-- langchain_service.py lines 134-160: _validate_email_data result dict. -/
structure ValidationResult where
  valid : Bool
  error : Option (List Char)
  suggestion : Option (List Char)
deriving DecidableEq

/-- langchain_service.py line 148 message. -/
def noContentMsg : List Char := "Email has no subject or body content".toList

/-- langchain_service.py line 156 message. -/
def tooShortMsg : List Char := "Email content too short for meaningful summary".toList

/-- langchain_service.py lines 134-160: _validate_email_data. -/
def validate_email_data (ed : EmailData) : ValidationResult :=
  if ed.subject = [] && ed.body = [] then
    ⟨false, some noContentMsg, none⟩
  else
    let total_content := pyStrip (ed.subject ++ [' '] ++ ed.body)
    if total_content.length < 10 then
      ⟨false, some tooShortMsg,
        some ("Brief email from ".toList ++ ed.sender ++ ": ".toList ++ total_content)⟩
    else ⟨true, none, none⟩

/-- langchain_service.py line 173: max_input_chars. -/
def max_input_chars : Nat := 12000

/-- langchain_service.py line 175: f-string joining the three fields. -/
def total_content (e : EmailData) : List Char :=
  e.subject ++ [' '] ++ e.sender ++ [' '] ++ e.body

/-- langchain_service.py line 184: the marker appended to a truncated body. -/
def truncNotice (original_length : Nat) : List Char :=
  "\n\n[Content truncated - original: ".toList ++ natRepr original_length ++ " chars]".toList

/-- langchain_service.py lines 162-186: _handle_long_content. The Python
locals are inlined: overhead = len(subject) + len(sender) + 200, and
max_body_length = max_input_chars - overhead, which may be negative and
is therefore an Int. original_length is the untruncated body length. -/
def handle_long_content (e : EmailData) : EmailData :=
  if (total_content e).length > max_input_chars then
    if ((max_input_chars : Int) - ((e.subject.length : Int) + (e.sender.length : Int) + 200)) > 0
    then
      EmailData.mk e.subject e.sender
        (e.body.take ((max_input_chars : Int) -
            ((e.subject.length : Int) + (e.sender.length : Int) + 200)).toNat ++
          truncNotice e.body.length)
    else e
  else e

/-- langchain_service.py lines 119-130: parts of the summary prompt f-string. -/
def promptPart1 : List Char :=
  ("Please provide a concise summary of this email. Focus on the main purpose, " ++
   "key information, and any required actions.\n\nSubject: ").toList

/-- Prompt text between subject and sender. -/
def promptPart2 : List Char := "\nSender: ".toList

/-- Prompt text between sender and body. -/
def promptPart3 : List Char := "\nEmail Body: ".toList

/-- Prompt text after the body. -/
def promptPart4 : List Char :=
  ("\n\nPlease summarize this email in 2-3 clear sentences that capture:\n" ++
   "1. The main purpose or reason for the email\n" ++
   "2. Key information or important details\n" ++
   "3. Any actions required or deadlines mentioned\n\nSummary:").toList

/-- langchain_service.py lines 109-132: create_summary_prompt. -/
def create_summary_prompt (ed : EmailData) : List Char :=
  promptPart1 ++ ed.subject ++ promptPart2 ++ ed.sender ++ promptPart3 ++ ed.body ++ promptPart4

/-- Outcome of self.llm.invoke(messages): the model reply content, or a
raised exception with its message. -/
inductive LLMOutcome where
  | content (c : List Char)
  | raised (msg : List Char)

/-- langchain_service.py line 260 message. -/
def openaiRateMsg : List Char :=
  "OpenAI API rate limit exceeded. Please try again later.".toList

/-- langchain_service.py line 262 message. -/
def openaiKeyMsg : List Char :=
  "Invalid OpenAI API key. Please check your credentials.".toList

/-- langchain_service.py line 264 message. -/
def openaiQuotaMsg : List Char :=
  "OpenAI API quota exceeded. Please check your billing.".toList

/-- langchain_service.py line 268 message. -/
def geminiKeyMsg : List Char :=
  "Invalid Gemini API key. Please check your credentials.".toList

/-- langchain_service.py line 270 message. -/
def geminiQuotaMsg : List Char :=
  "Gemini API quota exceeded. Please try again later.".toList

/-- langchain_service.py line 272 message. -/
def geminiRateMsg : List Char :=
  "Gemini API rate limit exceeded. Please try again later.".toList

/-- langchain_service.py lines 255-273: the provider-specific rewriting of
an exception message inside the except-block of summarize_email. -/
def normalizeProviderError (p : Provider) (msg : List Char) : List Char :=
  match p with
  | .openai =>
    if hasSub "rate_limit_exceeded".toList (lowerList msg) then openaiRateMsg
    else if hasSub "invalid_api_key".toList (lowerList msg) then openaiKeyMsg
    else if hasSub "insufficient_quota".toList (lowerList msg) then openaiQuotaMsg
    else msg
  | .gemini =>
    if hasSub "api_key_invalid".toList (lowerList msg) then geminiKeyMsg
    else if hasSub "quota_exceeded".toList (lowerList msg) then geminiQuotaMsg
    else if hasSub "rate_limit".toList (lowerList msg) then geminiRateMsg
    else msg

/-- langchain_service.py lines 274-278: the dict returned from the
except-block. -/
def exceptResult (p : Provider) (msg : List Char) : SummaryResult :=
  ⟨false, none, some (normalizeProviderError p msg), some (provValue p), none⟩

/-- langchain_service.py line 246 message. -/
def emptyResponseMsg : List Char := "Empty response received from the model".toList

/-- langchain_service.py lines 188-278: summarize_email. The configured
backend call self.llm.invoke is the parameter llm, applied to the user
prompt (the fixed system message and decoding parameters are
configuration, not modelled); modelName is self.model_name. Every raised
exception (including pydantic ValidationError from the EmailData
construction) is caught by the except-block. -/
def summarize_email (p : Provider) (modelName : List Char)
    (llm : List Char → LLMOutcome) (subject sender body : List Char) : SummaryResult :=
  match emailDataMk subject sender body with
  | .error msg => exceptResult p msg
  | .ok ed0 =>
    let validation := validate_email_data ed0
    if validation.valid then
      let ed := handle_long_content ed0
      let prompt := create_summary_prompt ed
      match llm prompt with
      | .raised msg => exceptResult p msg
      | .content c =>
        let summary := pyStrip c
        if summary = [] then ⟨false, none, some emptyResponseMsg, none, none⟩
        else ⟨true, some summary, none, some (provValue p), some modelName⟩
    else
      match validation.suggestion with
      | some sg => ⟨true, some sg, none, some (provValue p), some "short_email_handler".toList⟩
      | none => ⟨false, none, validation.error, none, none⟩

/-- A Python value handed around by the controller: a string, or the dict
returned by summarize_email. -/
inductive PyVal where
  | str (s : List Char)
  | dict (r : SummaryResult)
deriving DecidableEq

/-- Single-quote character, for Python repr of strings. -/
def sglq : Char := Char.ofNat 39

/-- Opening brace character. -/
def obr : Char := Char.ofNat 123

/-- Closing brace character. -/
def cbr : Char := Char.ofNat 125

/-- Python repr of a string: single-quoted (escaping of embedded quote
characters is not modelled; no modelled message contains one). -/
def pyQuote (s : List Char) : List Char := [sglq] ++ s ++ [sglq]

/-- Python repr of a bool. -/
def pyBool (b : Bool) : List Char := if b then "True".toList else "False".toList

/-- One dict entry, repr-style. -/
def dictEntry (key : List Char) (val : List Char) : List Char :=
  pyQuote key ++ ": ".toList ++ val

/-- The entries of the summarize_email result dict, in the insertion order
used by every branch of the source (success, summary, error, provider,
model; each of the optional keys only when present). -/
def dictEntries (r : SummaryResult) : List (List Char) :=
  [dictEntry "success".toList (pyBool r.success)] ++
  (match r.summary with
   | some s => [dictEntry "summary".toList (pyQuote s)]
   | none => []) ++
  (match r.error with
   | some e => [dictEntry "error".toList (pyQuote e)]
   | none => []) ++
  (match r.provider with
   | some p => [dictEntry "provider".toList (pyQuote p)]
   | none => []) ++
  (match r.model with
   | some m => [dictEntry "model".toList (pyQuote m)]
   | none => [])

/-- Python str() of the summarize_email result dict. -/
def dictRepr (r : SummaryResult) : List Char :=
  [obr] ++ List.intercalate ", ".toList (dictEntries r) ++ [cbr]

/-- Python str() of a PyVal (murfai_service.py line 43: str(text)). -/
def pyStr : PyVal → List Char
  | .str s => s
  | .dict r => dictRepr r

/-- murfai_service.py: the response object of
client.text_to_speech.generate, reduced to its audio_file attribute. -/
structure MurfResp where
  audio_file : List Char
deriving DecidableEq

/-- Outcome of the Murf backend call: a response object (or None), or a
raised exception with its message. -/
inductive TTSOutcome where
  | success (resp : Option MurfResp)
  | raised (msg : List Char)

/-- murfai_service.py line 54 message. -/
def noAudioMsg : List Char := "No audio file generated".toList

/-- murfai_service.py line 59: the wrapping applied to every failure. -/
def ttsWrapMsg : List Char := "Error in text-to-speech conversion: ".toList

/-- murfai_service.py lines 24-59: text_to_speech. The backend call is the
parameter backend, applied to str(text); voice selection is
configuration, not modelled. All raises (backend exceptions and the
internal no-audio raise) are re-raised wrapped by the except-block. -/
def text_to_speech (backend : List Char → TTSOutcome) (text : PyVal) :
    Except (List Char) (List Char) :=
  let textStr := pyStr text
  match backend textStr with
  | .raised m => .error (ttsWrapMsg ++ m)
  | .success none => .error (ttsWrapMsg ++ noAudioMsg)
  | .success (some r) =>
    if r.audio_file = [] then .error (ttsWrapMsg ++ noAudioMsg)
    else .ok r.audio_file

/-- Environment variables read by the two services. -/
structure Env where
  geminiKey : Option (List Char)
  openaiKey : Option (List Char)
  murfKey : Option (List Char)

/-- langchain_service.py lines 28-32: the model_provider argument, either
a ModelProvider enum member or a string. -/
inductive ProviderArg where
  | fromEnum (p : Provider)
  | fromStr (s : List Char)

/-- langchain_service.py line 32 message. -/
def invalidProviderMsg (s : List Char) : List Char :=
  "Invalid model provider: ".toList ++ s ++ ". Use ".toList ++ pyQuote "gemini".toList ++
    " or ".toList ++ pyQuote "openai".toList

/-- langchain_service.py lines 28-32: ModelProvider(model_provider.lower()),
raising ValueError on an unrecognized identifier. -/
def parseProviderStr (s : List Char) : Except (List Char) Provider :=
  if lowerList s = "gemini".toList then .ok .gemini
  else if lowerList s = "openai".toList then .ok .openai
  else .error (invalidProviderMsg s)

/-- langchain_service.py line 66 message. -/
def geminiKeyReqMsg : List Char := "Gemini API key is required. Set GEMINI_API_KEY in env".toList

/-- langchain_service.py line 92 message. -/
def openaiKeyReqMsg : List Char :=
  "OpenAI API key is required. Set OPENAI_API_KEY environment variable.".toList

/-- The constructed service state: chosen provider and model name. -/
structure LangchainState where
  provider : Provider
  modelName : List Char
deriving DecidableEq

/-- langchain_service.py lines 43-107: _initialize_llm, including the
API-key checks of _initialize_gemini / _initialize_openai (os.getenv
returns None when unset; an empty string is falsy like None). -/
def init_llm (env : Env) (p : Provider) : Except (List Char) LangchainState :=
  match p with
  | .gemini =>
    match env.geminiKey with
    | none => .error geminiKeyReqMsg
    | some k =>
      if k = [] then .error geminiKeyReqMsg
      else .ok ⟨.gemini, "gemini-2.0-flash-001".toList⟩
  | .openai =>
    match env.openaiKey with
    | none => .error openaiKeyReqMsg
    | some k =>
      if k = [] then .error openaiKeyReqMsg
      else .ok ⟨.openai, "gpt-4o".toList⟩

/-- langchain_service.py lines 20-41: LangchainService.__init__. -/
def langchainInit (env : Env) (arg : ProviderArg) : Except (List Char) LangchainState :=
  match arg with
  | .fromStr s => (parseProviderStr s).bind (init_llm env)
  | .fromEnum p => init_llm env p

/-- murfai_service.py line 19 message. -/
def murfKeyReqMsg : List Char :=
  ("MURF_API_KEY is required. Set it in environment variables or pass it to " ++
   "the constructor.").toList

/-- murfai_service.py lines 10-22: MurfAIService.__init__.
self.api_key = api_key or os.getenv(MURF_API_KEY); raise if falsy.
Returns the stored api_key on success. -/
def murfInit (api_key : Option (List Char)) (env : Env) : Except (List Char) (List Char) :=
  let resolved : List Char :=
    match api_key with
    | some k => if k = [] then env.murfKey.getD [] else k
    | none => env.murfKey.getD []
  if resolved = [] then .error murfKeyReqMsg else .ok resolved

/-- The dict returned by the controller on success. -/
structure ControllerOk where
  summary : PyVal
  summary_audio_link : List Char
deriving DecidableEq

/-- Outcome of EmailSummarizerController.summarize_email: the response
dict, or a raised HTTPException with status code and detail. -/
inductive ControllerOut where
  | response (r : ControllerOk)
  | httpError (status : Nat) (detail : List Char)
deriving DecidableEq

/-- email_summarizer_controller.py line 45 detail. -/
def failedSummaryDetail : List Char := "Failed to generate email summary".toList

/-- email_summarizer_controller.py line 54 detail. -/
def failedAudioDetail : List Char := "Failed to generate audio file".toList

/-- email_summarizer_controller.py line 69: wrapping of an unexpected
exception. -/
def controllerWrapMsg : List Char := "An error occurred while processing the email: ".toList

/-- Python truthiness of the summarize_email result: a dict is falsy iff
empty, and every dict built by summarize_email carries at least the
success key, so it is never empty. -/
def summaryDictIsEmpty (_ : SummaryResult) : Bool := false

/-- email_summarizer_controller.py lines 13-70: summarize_email. The
second component of the result records whether
murf_service.text_to_speech was invoked. summarize_email never raises
(its own except-block returns a dict), so only the murf call can raise;
that raise is caught by the generic except and wrapped into an
HTTPException(500). -/
def controller_summarize_email (p : Provider) (modelName : List Char)
    (llm : List Char → LLMOutcome) (backend : List Char → TTSOutcome)
    (ed : EmailData) : ControllerOut × Bool :=
  let summary_text := summarize_email p modelName llm ed.subject ed.sender ed.body
  if summaryDictIsEmpty summary_text then
    (.httpError 500 failedSummaryDetail, false)
  else
    match text_to_speech backend (PyVal.dict summary_text) with
    | .error m => (.httpError 500 (controllerWrapMsg ++ m), true)
    | .ok audio_file =>
      if audio_file = [] then (.httpError 500 failedAudioDetail, true)
      else (.response ⟨PyVal.dict summary_text, audio_file⟩, true)

/-! Helper lemmas (shared; not claim theorems). -/

/-- A number below 10^k has at most k decimal digits (k ≥ 1). -/
theorem natRepr_len_le (n k : Nat) (hk : 1 ≤ k) (h : n < 10 ^ k) :
    (natRepr n).length ≤ k := by
  unfold natRepr
  split
  · simpa using hk
  · next hn =>
    simp only [List.length_reverse, List.length_map]
    rw [Nat.digits_len 10 n (by norm_num) hn]
    have := Nat.log_lt_of_lt_pow hn h
    omega

/-- The length of the three fields joined by single spaces. -/
theorem total_content_length (e : EmailData) :
    (total_content e).length = e.subject.length + e.sender.length + e.body.length + 2 := by
  simp [total_content, List.length_append]
  omega

/-- When subject plus sender leaves no positive room under the buffer,
_handle_long_content leaves the email untouched. -/
theorem handle_long_no_room (e : EmailData)
    (h2 : 12000 ≤ e.subject.length + e.sender.length + 200) :
    handle_long_content e = e := by
  unfold handle_long_content max_input_chars
  split
  · split
    · next hpos => exfalso; omega
    · rfl
  · rfl

/-- When there is positive room, _handle_long_content truncates the body
to the remaining budget and appends the marker. -/
theorem handle_long_trunc (e : EmailData)
    (h1 : (total_content e).length > 12000)
    (h2 : e.subject.length + e.sender.length + 200 < 12000) :
    handle_long_content e =
      EmailData.mk e.subject e.sender
        (e.body.take (11800 - e.subject.length - e.sender.length) ++
          truncNotice e.body.length) := by
  unfold handle_long_content max_input_chars
  split
  · split
    · next hpos =>
      have harg : (((12000 : Nat) : Int) -
            ((e.subject.length : Int) + (e.sender.length : Int) + 200)).toNat
          = 11800 - e.subject.length - e.sender.length := by omega
      rw [harg]
    · next hneg => exfalso; omega
  · next hgt => exfalso; exact hgt h1

/-- C9: the long-content handling modifies only the body field; subject
and sender are unchanged whether or not truncation occurs. -/
theorem c9_trunc_only_body (e : EmailData) :
    (handle_long_content e).subject = e.subject ∧
    (handle_long_content e).sender = e.sender := by
  unfold handle_long_content
  split
  · split
    · exact ⟨rfl, rfl⟩
    · exact ⟨rfl, rfl⟩
  · exact ⟨rfl, rfl⟩

/-- C10: when the combined content exceeds the 12000-character budget but
subject plus sender plus the 200-character buffer already reaches 12000,
_handle_long_content performs no truncation at all: the email (body
included) is returned unchanged and the content stays over budget. -/
theorem c10_no_room_no_trunc (e : EmailData)
    (h1 : (total_content e).length > max_input_chars)
    (h2 : 12000 ≤ e.subject.length + e.sender.length + 200) :
    handle_long_content e = e ∧
    (total_content (handle_long_content e)).length > 12000 := by
  have he := handle_long_no_room e h2
  refine ⟨he, ?_⟩
  rw [he]
  simpa [max_input_chars] using h1

/-- Concrete input for C10: subject of 12000 characters. -/
def exNoRoom : EmailData :=
  ⟨List.replicate 12000 'a', "s@x.io".toList, "0123456789".toList⟩

/-- C10 witness: the theorem applied at a concrete oversized email whose
subject alone exhausts the budget. -/
theorem c10_witness :
    (total_content exNoRoom).length > max_input_chars ∧
    12000 ≤ exNoRoom.subject.length + exNoRoom.sender.length + 200 ∧
    (handle_long_content exNoRoom = exNoRoom ∧
      (total_content (handle_long_content exNoRoom)).length > 12000) := by
  have hs : exNoRoom.subject.length = 12000 := by
    have he : exNoRoom.subject = List.replicate 12000 'a' := rfl
    rw [he, List.length_replicate]
  have hn : exNoRoom.sender.length = 6 := by decide
  have hb : exNoRoom.body.length = 10 := by decide
  have h1 : (total_content exNoRoom).length > max_input_chars := by
    rw [total_content_length, hs, hn, hb]
    norm_num [max_input_chars]
  have h2 : 12000 ≤ exNoRoom.subject.length + exNoRoom.sender.length + 200 := by
    rw [hs, hn]; norm_num
  exact ⟨h1, h2, c10_no_room_no_trunc exNoRoom h1 h2⟩

/-- The length of the truncation marker: 40 characters of fixed text plus
the decimal digits of the original length. -/
theorem truncNotice_length (n : Nat) :
    (truncNotice n).length = 40 + (natRepr n).length := by
  simp only [truncNotice, List.length_append]
  have ha : ("\n\n[Content truncated - original: ".toList).length = 33 := by rfl
  have hb : (" chars]".toList).length = 7 := by rfl
  rw [ha, hb]
  omega

/-- C5 (amended): when the combined content exceeds the 12000-character
budget and subject plus sender leaves positive room under the
200-character buffer, _handle_long_content truncates the body so that
the total content stays within the budget, and the truncated body ends
with the marker stating the original body length. The body-length bound
only rules out bodies whose decimal length representation would itself
overflow the budget. -/
theorem c5_trunc_within_budget (e : EmailData)
    (h1 : (total_content e).length > 12000)
    (h2 : e.subject.length + e.sender.length + 200 < 12000)
    (h3 : e.body.length < 10 ^ 100) :
    (total_content (handle_long_content e)).length ≤ 12000 ∧
    truncNotice e.body.length <:+ (handle_long_content e).body := by
  have heq := handle_long_trunc e h1 h2
  have hlen := total_content_length e
  have hd : (natRepr e.body.length).length ≤ 100 :=
    natRepr_len_le e.body.length 100 (by norm_num) h3
  constructor
  · rw [heq, total_content_length]
    simp only [List.length_append, List.length_take, truncNotice_length]
    omega
  · rw [heq]
    exact List.suffix_append _ _

/-- Concrete input for C5: a 20000-character body. -/
def exLongBody : EmailData :=
  ⟨"Meeting notes".toList, "alice@example.com".toList, List.replicate 20000 'a'⟩

/-- C5 witness: the theorem applied at the 20000-character-body email of
the example of the spec. -/
theorem c5_witness :
    (total_content exLongBody).length > 12000 ∧
    exLongBody.subject.length + exLongBody.sender.length + 200 < 12000 ∧
    exLongBody.body.length < 10 ^ 100 ∧
    ((total_content (handle_long_content exLongBody)).length ≤ 12000 ∧
      truncNotice exLongBody.body.length <:+ (handle_long_content exLongBody).body) := by
  have hs : exLongBody.subject.length = 13 := by decide
  have hn : exLongBody.sender.length = 17 := by decide
  have hb : exLongBody.body.length = 20000 := by
    have he : exLongBody.body = List.replicate 20000 'a' := rfl
    rw [he, List.length_replicate]
  have h1 : (total_content exLongBody).length > 12000 := by
    rw [total_content_length, hs, hn, hb]
    norm_num
  have h2 : exLongBody.subject.length + exLongBody.sender.length + 200 < 12000 := by
    rw [hs, hn]; norm_num
  have h3 : exLongBody.body.length < 10 ^ 100 := by
    rw [hb]; norm_num
  exact ⟨h1, h2, h3, c5_trunc_within_budget exLongBody h1 h2 h3⟩

/-- Concrete input refuting C5 as stated: combined content exceeds 12000
characters, but the 12300-character subject leaves no room for the body. -/
def exHugeSubject : EmailData :=
  ⟨List.replicate 12300 'a', "s".toList, "0123456789".toList⟩

/-- C5 counterexample: an email whose combined content exceeds the
12000-character budget but on which _handle_long_content performs no
truncation at all, so the content does not come back within budget and
no marker is appended. -/
theorem c5_counterexample :
    (total_content exHugeSubject).length > 12000 ∧
    handle_long_content exHugeSubject = exHugeSubject ∧
    (total_content (handle_long_content exHugeSubject)).length > 12000 := by
  have hs : exHugeSubject.subject.length = 12300 := by
    have he : exHugeSubject.subject = List.replicate 12300 'a' := rfl
    rw [he, List.length_replicate]
  have hn : exHugeSubject.sender.length = 1 := by decide
  have hb : exHugeSubject.body.length = 10 := by decide
  have h1 : (total_content exHugeSubject).length > 12000 := by
    rw [total_content_length, hs, hn, hb]; norm_num
  have he := handle_long_no_room exHugeSubject (by rw [hs, hn]; norm_num)
  exact ⟨h1, he, by rw [he]; exact h1⟩

/-- C4 counterexample: a whitespace-only subject passes construction
(pydantic checks min_length on the raw value before the strip validator
runs), although the claim requires failure whenever the subject is empty
after trimming. -/
theorem c4_counterexample :
    (emailDataMk " ".toList "a@b.com".toList "hello world".toList).isOk = true ∧
    pyStrip " ".toList = [] ∧
    emailDataMk " ".toList "a@b.com".toList "hello world".toList =
      .ok ⟨[], "a@b.com".toList, "hello world".toList⟩ :=
  ⟨rfl, rfl, rfl⟩

/-- C4 (amended): constructing an EmailData trims leading and trailing
whitespace on subject, sender and body, and construction fails if and
only if subject, sender or body is the empty string before trimming, or
the body is shorter than 10 characters after trimming. -/
theorem c4_trim_and_reject (s snd b : List Char) :
    ((emailDataMk s snd b).isOk = true ↔
      (s ≠ [] ∧ snd ≠ [] ∧ b ≠ [] ∧ ¬ (pyStrip b).length < 10)) ∧
    ((s ≠ [] ∧ snd ≠ [] ∧ b ≠ [] ∧ ¬ (pyStrip b).length < 10) →
      emailDataMk s snd b = .ok ⟨pyStrip s, pyStrip snd, pyStrip b⟩) := by
  unfold emailDataMk
  by_cases hs : s = [] <;> by_cases hn : snd = [] <;> by_cases hb : b = [] <;>
    by_cases hl : (pyStrip b).length < 10 <;>
      simp [hs, hn, hb, hl, Except.isOk, Except.toBool]

/-- C4 witness: the amended theorem applied at a concrete valid input. -/
theorem c4_witness :
    ("Hello".toList ≠ ([] : List Char) ∧ "a@b.com".toList ≠ ([] : List Char) ∧
      "hello world".toList ≠ ([] : List Char) ∧
      ¬ (pyStrip "hello world".toList).length < 10) ∧
    emailDataMk "Hello".toList "a@b.com".toList "hello world".toList =
      .ok ⟨pyStrip "Hello".toList, pyStrip "a@b.com".toList, pyStrip "hello world".toList⟩ := by
  have h := (c4_trim_and_reject "Hello".toList "a@b.com".toList "hello world".toList).2
  exact ⟨by decide, h (by decide)⟩

/-- Concrete evaluation of the short-email scenario of C3. -/
def c3res : SummaryResult :=
  summarize_email .gemini "gemini-2.0-flash-001".toList (fun _ => .content "model output".toList)
    "Hi".toList "a@b.com".toList "ok".toList

/-- C3 counterexample: for subject Hi, sender a@b.com, body ok, the call
does not return the claimed short-circuit success: the EmailData
constructed inside summarize_email rejects the 2-character body first,
and the caught ValidationError yields a failure dict. -/
theorem c3_counterexample :
    c3res.success = false ∧ c3res.summary = none ∧ c3res.error = some bodyLenMsg :=
  ⟨rfl, rfl, rfl⟩

/-- C3 (amended): for subject Hi, sender a@b.com, body ok, summarize_email
returns success false (the internal EmailData construction fails on the
short body and the error is caught), the result carries no summary, and
no backend invocation occurs: the result does not depend on the llm
argument. -/
theorem c3_short_body_fails (p : Provider) (modelName : List Char)
    (llm llm2 : List Char → LLMOutcome) :
    (summarize_email p modelName llm "Hi".toList "a@b.com".toList "ok".toList).success = false ∧
    (summarize_email p modelName llm "Hi".toList "a@b.com".toList "ok".toList).summary = none ∧
    summarize_email p modelName llm "Hi".toList "a@b.com".toList "ok".toList =
      summarize_email p modelName llm2 "Hi".toList "a@b.com".toList "ok".toList := by
  cases p <;> exact ⟨rfl, rfl, rfl⟩

/-- A concrete valid email that reaches the backend invocation. -/
def edValid : EmailData :=
  ⟨"Project update".toList, "team@example.com".toList,
    "Please review the attached quarterly report today.".toList⟩

/-- On the concrete valid email, a raising backend sends summarize_email
into its except-block: the result is the normalized failure dict. -/
theorem summarize_raised_eq (p : Provider) (mn msg : List Char) :
    summarize_email p mn (fun _ => .raised msg) edValid.subject edValid.sender edValid.body =
      exceptResult p msg := by
  cases p <;> rfl

/-- A backend error message containing both the Gemini credentials marker
and the Gemini rate-limit marker. -/
def mixedMarkerMsg : List Char := "api_key_invalid rate_limit".toList

/-- C6 counterexample: for the Gemini provider, a raised error whose
message contains the rate-limit marker is nonetheless classified as
invalid-credentials, because the api_key_invalid check runs first. -/
theorem c6_counterexample :
    hasSub "rate_limit".toList (lowerList mixedMarkerMsg) = true ∧
    (summarize_email .gemini "gemini-2.0-flash-001".toList (fun _ => .raised mixedMarkerMsg)
        edValid.subject edValid.sender edValid.body).error = some geminiKeyMsg ∧
    geminiKeyMsg ≠ geminiRateMsg := by
  refine ⟨rfl, rfl, ?_⟩
  decide

/-- C6 (amended): a raised backend error whose lowercased message contains
the rate-limit marker of the provider is classified as rate-limit-exceeded,
provided the message does not also contain a marker checked earlier for
that provider (for OpenAI the rate-limit check is first; for Gemini the
api_key_invalid and quota_exceeded checks run first). -/
theorem c6_rate_limit_classified (msg : List Char) :
    (hasSub "rate_limit_exceeded".toList (lowerList msg) = true →
      summarize_email .openai "gpt-4o".toList (fun _ => .raised msg)
          edValid.subject edValid.sender edValid.body =
        ⟨false, none, some openaiRateMsg, some (provValue .openai), none⟩) ∧
    (hasSub "rate_limit".toList (lowerList msg) = true →
      hasSub "api_key_invalid".toList (lowerList msg) = false →
      hasSub "quota_exceeded".toList (lowerList msg) = false →
      summarize_email .gemini "gemini-2.0-flash-001".toList (fun _ => .raised msg)
          edValid.subject edValid.sender edValid.body =
        ⟨false, none, some geminiRateMsg, some (provValue .gemini), none⟩) := by
  constructor
  · intro h1
    rw [summarize_raised_eq]
    unfold exceptResult normalizeProviderError
    rw [if_pos h1]
  · intro h1 h2 h3
    rw [summarize_raised_eq]
    unfold exceptResult normalizeProviderError
    have h2x : ¬ hasSub "api_key_invalid".toList (lowerList msg) = true := by
      rw [h2]; exact Bool.false_ne_true
    have h3x : ¬ hasSub "quota_exceeded".toList (lowerList msg) = true := by
      rw [h3]; exact Bool.false_ne_true
    rw [if_neg h2x, if_neg h3x, if_pos h1]

/-- A plain rate-limit error message. -/
def rateLimitMsg : List Char := "rate_limit_exceeded".toList

/-- C6 witness: the amended theorem applied to a concrete rate-limit
message for each of the two providers. -/
theorem c6_witness :
    summarize_email .openai "gpt-4o".toList (fun _ => .raised rateLimitMsg)
        edValid.subject edValid.sender edValid.body =
      ⟨false, none, some openaiRateMsg, some (provValue .openai), none⟩ ∧
    summarize_email .gemini "gemini-2.0-flash-001".toList (fun _ => .raised rateLimitMsg)
        edValid.subject edValid.sender edValid.body =
      ⟨false, none, some geminiRateMsg, some (provValue .gemini), none⟩ := by
  have h := c6_rate_limit_classified rateLimitMsg
  exact ⟨h.1 (by decide), h.2 (by decide) (by decide) (by decide)⟩

/-- C7: constructing the summarization service with a string identifier
other than gemini or openai (after lowercasing) raises the configuration
ValueError during __init__, and constructing the Murf service with no
API credential (argument and environment both absent or empty) raises
its configuration ValueError during __init__; in both cases no service
object is produced, so the error cannot be deferred to call time. -/
theorem c7_construction_fails_fast (env : Env) (s : List Char) (arg : Option (List Char))
    (hps : lowerList s ≠ "gemini".toList ∧ lowerList s ≠ "openai".toList)
    (hkey : (arg = none ∨ arg = some []) ∧ (env.murfKey = none ∨ env.murfKey = some [])) :
    langchainInit env (.fromStr s) = .error (invalidProviderMsg s) ∧
    murfInit arg env = .error murfKeyReqMsg := by
  constructor
  · have hdef : langchainInit env (.fromStr s) = (parseProviderStr s).bind (init_llm env) :=
      rfl
    rw [hdef]
    unfold parseProviderStr
    rw [if_neg hps.1, if_neg hps.2]
    rfl
  · obtain ⟨ha, he⟩ := hkey
    rcases ha with rfl | rfl <;> rcases he with he | he <;> simp [murfInit, he]

/-- C7 witness: the theorem applied to the unknown identifier claude and
an environment with no Murf credential. -/
theorem c7_witness :
    langchainInit ⟨none, none, none⟩ (.fromStr "claude".toList) =
      .error (invalidProviderMsg "claude".toList) ∧
    murfInit none ⟨none, none, none⟩ = .error murfKeyReqMsg :=
  c7_construction_fails_fast ⟨none, none, none⟩ "claude".toList none
    ⟨by decide, by decide⟩ ⟨Or.inl rfl, Or.inl rfl⟩

/-- C8: text_to_speech calls the backend on str(text) (so a non-string
argument is stringified first), raises the wrapped no-audio synthesis
error when the backend returns no response or an empty audio reference,
wraps a raised backend exception into the same single synthesis-error
kind carrying the original message, and returns the audio reference
otherwise. -/
theorem c8_tts_error_handling (backend : List Char → TTSOutcome) (text : PyVal) :
    (∀ m, backend (pyStr text) = .raised m →
      text_to_speech backend text = .error (ttsWrapMsg ++ m)) ∧
    (backend (pyStr text) = .success none →
      text_to_speech backend text = .error (ttsWrapMsg ++ noAudioMsg)) ∧
    (∀ r, backend (pyStr text) = .success (some r) → r.audio_file = [] →
      text_to_speech backend text = .error (ttsWrapMsg ++ noAudioMsg)) ∧
    (∀ r, backend (pyStr text) = .success (some r) → r.audio_file ≠ [] →
      text_to_speech backend text = .ok r.audio_file) := by
  refine ⟨fun m h => ?_, fun h => ?_, fun r h hr => ?_, fun r h hr => ?_⟩
  · simp [text_to_speech, h]
  · simp [text_to_speech, h]
  · simp [text_to_speech, h, hr]
  · simp [text_to_speech, h, hr]

/-- A non-string input for the C8 witness: a failure dict. -/
def dictText : PyVal := .dict ⟨false, none, some "boom".toList, some "gemini".toList, none⟩

/-- C8 witness: the theorem applied to a raising backend and a dict (a
non-string) text argument. -/
theorem c8_witness :
    text_to_speech (fun _ => .raised "socket closed".toList) dictText =
      .error (ttsWrapMsg ++ "socket closed".toList) :=
  (c8_tts_error_handling (fun _ => .raised "socket closed".toList) dictText).1
    "socket closed".toList rfl

/-- The summarize_email failure dict produced when the Gemini backend
raises a rate-limit error on edValid. -/
def rateFailDict : SummaryResult :=
  ⟨false, none, some geminiRateMsg, some "gemini".toList, none⟩

/-- A concrete audio URL returned by the TTS backend in the evaluations. -/
def audioURL : List Char := "https://murf.ai/audio/1.mp3".toList

/-- C1: evaluation of the controller at a request whose summarization
fails (the backend raises a rate-limit error). Contrary to the claim,
the controller does not transition to a failure: the failure dict is
truthy, so the 500 check never fires, text_to_speech IS invoked (second
component true), and a completed response is returned whose summary is
the failure dict. -/
theorem c1_code_eval :
    controller_summarize_email .gemini "gemini-2.0-flash-001".toList
        (fun _ => .raised "rate_limit hit".toList)
        (fun _ => .success (some ⟨audioURL⟩)) edValid =
      (.response ⟨PyVal.dict rateFailDict, audioURL⟩, true) ∧
    rateFailDict.success = false := by
  exact ⟨rfl, rfl⟩

/-- The model reply used in the C2 evaluation. -/
def replyText : List Char := "The team must review the quarterly report today.".toList

/-- The summarize_email success dict produced from replyText on edValid. -/
def okDict : SummaryResult :=
  ⟨true, some replyText, none, some "gemini".toList, some "gemini-2.0-flash-001".toList⟩

/-- C2: evaluation of the controller at a request whose summarization
succeeds. Contrary to the claim, the summary field of the response is the
whole result dict, not the summary string, and the text handed to the
TTS backend is str() of that dict, not the summary text. -/
theorem c2_code_eval :
    controller_summarize_email .gemini "gemini-2.0-flash-001".toList
        (fun _ => .content replyText)
        (fun _ => .success (some ⟨audioURL⟩)) edValid =
      (.response ⟨PyVal.dict okDict, audioURL⟩, true) ∧
    PyVal.dict okDict ≠ PyVal.str replyText ∧
    pyStr (PyVal.dict okDict) ≠ replyText := by
  refine ⟨rfl, ?_, ?_⟩ <;> decide
